import Mathlib

/-!
# function.hpp: trait unwrapping and the type-erased callable wrapper

A shallow embedding of `src/function.hpp`.  The header is template
metaprogramming, so most of the embedding works on C++ *types*: the type
`Cpp.Ty` is the universe of C++ types the header can be instantiated with,
the partial specialisations of a class template become the rows of a pattern
match, and a template that is declared but not defined for some argument
(an incomplete type, whose members cannot be named) is `none`.  The run-time
part of the header (the constructors and the call operators of
`detail::function`) is embedded in the namespace `my.run`.
-/

namespace Cpp

/-- A cv-qualifier sequence. -/
inductive CV where
  | plain
  | const_
  | volatile_
  | const_volatile
  deriving DecidableEq, Repr

/-- The ref-qualifier of a function type. -/
inductive RefQual where
  | none
  | lvalue
  | rvalue
  deriving DecidableEq, Repr

/-- C++ types.  Object types carry their top-level cv-qualification; a function
type carries its own cv-qualifier-seq and ref-qualifier.  A class type carries
the part of its declaration the header looks at: the accessible `operator()`
members found by name lookup (each with its function type and whether it is a
member template) and whether the unqualified class is copy constructible and
copy assignable. -/
inductive Ty where
  | fundamental (name : String) (q : CV)
  | cls (name : String) (call_operators : List (Ty × Bool))
      (copy_constructible copy_assignable : Bool) (q : CV)
  | fn (ret : Ty) (args : List Ty) (q : CV) (r : RefQual)
  | ptr (pointee : Ty) (q : CV)
  | memptr (class_type : Ty) (member : Ty) (q : CV)
  | lref (referred : Ty)
  | rref (referred : Ty)

/-- The specialisation `std::tuple<Args...>`, given by its pack. -/
structure tuple where
  elems : List Ty

/-- The qualifier sequence spelled by a pair of flags. -/
def CV.of_flags : Bool → Bool → CV
  | false, false => .plain
  | true, false => .const_
  | false, true => .volatile_
  | true, true => .const_volatile

/-- Whether the sequence contains `const`. -/
def CV.has_const : CV → Bool
  | .const_ | .const_volatile => true
  | _ => false

/-- Whether the sequence contains `volatile`. -/
def CV.has_volatile : CV → Bool
  | .volatile_ | .const_volatile => true
  | _ => false

/-- The type `std::remove_reference_t<T>`. -/
def remove_reference : Ty → Ty
  | .lref T => T
  | .rref T => T
  | T => T

/-- The type `std::remove_cv_t<T>`: top-level qualifiers are dropped; function
and reference types have none. -/
def remove_cv : Ty → Ty
  | .fundamental name _ => .fundamental name .plain
  | .cls name ops cc ca _ => .cls name ops cc ca .plain
  | .ptr T _ => .ptr T .plain
  | .memptr C T _ => .memptr C T .plain
  | T => T

/-- The type `std::decay_t<T>`: with `U = remove_reference_t<T>`, a function
type `U` becomes `add_pointer_t<U>` (which leaves a cv- or ref-qualified
function type as it is, no pointer to it existing), any other `U` becomes
`remove_cv_t<U>`.  Array types are not part of the universe. -/
def decay_t (T : Ty) : Ty :=
  match remove_reference T with
  | .fn R Args .plain .none => .ptr (.fn R Args .plain .none) .plain
  | .fn R Args q r => .fn R Args q r
  | U => remove_cv U

/-- The type deduced for `Fn` from a call argument of type `A` when the
parameter is `Fn functional`, taken by value (line 382): references never
reach deduction, a function decays to a pointer (a cv- or ref-qualified
function type is the type of no expression and is left alone), top-level
qualifiers of the argument are ignored. -/
def deduce_by_value (A : Ty) : Ty :=
  match remove_reference A with
  | .fn R Args .plain .none => .ptr (.fn R Args .plain .none) .plain
  | .fn R Args q r => .fn R Args q r
  | U => remove_cv U

/-- Whether the type is a reference type. -/
def is_reference : Ty → Bool
  | .lref _ => true
  | .rref _ => true
  | _ => false

/-- The declarator `T&&` with reference collapsing. -/
def rvalue_reference_to : Ty → Ty
  | .lref T => .lref T
  | .rref T => .rref T
  | T => .rref T

/-- The value `std::is_copy_constructible<T>::value`, that is
`is_constructible<T, const T&>`. -/
def is_copy_constructible : Ty → Bool
  | .fundamental name _ => name != "void"
  | .cls _ _ cc _ q => cc && !q.has_volatile
  | .fn _ _ _ _ => false
  | .ptr _ _ => true
  | .memptr _ _ _ => true
  | .lref _ => true
  | .rref (.fn _ _ _ _) => true
  | .rref _ => false

/-- Whether an lvalue of the non-reference type `T` can be assigned from an
lvalue of type `T`. -/
def assignable_from_lvalue : Ty → Bool
  | .fundamental name q => name != "void" && !q.has_const
  | .cls _ _ _ ca q => ca && q == .plain
  | .ptr _ q => !q.has_const
  | .memptr _ _ q => !q.has_const
  | _ => false

/-- The value `std::is_copy_assignable<T>::value`, that is
`is_assignable<T&, const T&>`. -/
def is_copy_assignable (T : Ty) : Bool :=
  assignable_from_lvalue (remove_reference T)

/-- The type `T q *` for an entity `T` of any kind, as a record of the pointee
and its qualification. -/
structure qualified_ptr (T : Type) where
  pointee : T
  q : CV

end Cpp

namespace my
namespace detail

open Cpp

/-- The members of `signature<ReturnType, Args...>` (lines 20-28). -/
structure signature where
  return_type : Ty
  argument_type : tuple

namespace unwrap_traits

/-- The members of a defined `unwrap<Fn>`: those of `unwrap_trait_base`
(lines 40-59) with its `signature` base, and `class_type` when the
specialisation also derives from `class_trait_base` (lines 61-66). -/
structure traits extends signature where
  decayed_type : Ty
  is_member : Bool
  is_const : Bool
  is_volatile : Bool
  class_type : Option Ty

/-- The specialisation `unwrap_trait_base<ReturnType(Args...), IsMember, IsConst, IsVolatile>`. -/
def unwrap_trait_base (ReturnType : Ty) (Args : List Ty)
    (IsMember IsConst IsVolatile : Bool) : traits :=
  { return_type := ReturnType
    argument_type := ⟨Args⟩
    decayed_type := .fn ReturnType Args .plain .none
    is_member := IsMember
    is_const := IsConst
    is_volatile := IsVolatile
    class_type := none }

/-- Adding the base `class_trait_base<ClassType>`. -/
def class_trait_base (ClassType : Ty) (b : traits) : traits :=
  { b with class_type := some ClassType }

/-- The class template `unwrap` (lines 68-154): one row per partial
specialisation, in source order; the primary template is only declared, so
every other type has no members. -/
def unwrap : Ty → Option traits
  | .fn R Args .plain .none => some (unwrap_trait_base R Args false false false)
  | .fn R Args .const_ .none => some (unwrap_trait_base R Args false true false)
  | .fn R Args .volatile_ .none => some (unwrap_trait_base R Args false false true)
  | .fn R Args .const_volatile .none => some (unwrap_trait_base R Args false true true)
  | .ptr (.fn R Args .plain .none) .plain =>
      some (unwrap_trait_base R Args false false false)
  | .ptr (.fn R Args .plain .none) .const_ =>
      some (unwrap_trait_base R Args false true false)
  | .ptr (.fn R Args .plain .none) .volatile_ =>
      some (unwrap_trait_base R Args false false true)
  | .ptr (.fn R Args .plain .none) .const_volatile =>
      some (unwrap_trait_base R Args false true true)
  | .lref (.ptr (.fn R Args .plain .none) .plain) =>
      some (unwrap_trait_base R Args false false false)
  | .lref (.ptr (.fn R Args .plain .none) .const_) =>
      some (unwrap_trait_base R Args false true false)
  | .lref (.ptr (.fn R Args .plain .none) .volatile_) =>
      some (unwrap_trait_base R Args false false true)
  | .lref (.ptr (.fn R Args .plain .none) .const_volatile) =>
      some (unwrap_trait_base R Args false true true)
  | .memptr C (.fn R Args .plain .none) .plain =>
      some (class_trait_base C (unwrap_trait_base R Args true false false))
  | .memptr C (.fn R Args .const_ .none) .plain =>
      some (class_trait_base C (unwrap_trait_base R Args true true false))
  | .memptr C (.fn R Args .volatile_ .none) .plain =>
      some (class_trait_base C (unwrap_trait_base R Args true false true))
  | .memptr C (.fn R Args .const_volatile .none) .plain =>
      some (class_trait_base C (unwrap_trait_base R Args true true true))
  | _ => none

end unwrap_traits
namespace unwrap_traits

/-- The class types `unwrap_t<Fn>` can be compared with: a specialisation
`unwrap<X>` of the trait, or `std::false_type`. -/
inductive trait_class where
  | unwrap_of (X : Ty)
  | false_type

/-- The trait members `decayed_type`, `is_const`, ... that can be named in a
class of the trait machinery: `std::false_type` has none of them. -/
def trait_class.members : trait_class → Option traits
  | .unwrap_of X => unwrap X
  | .false_type => none

/-- The type `decltype(&Fn::operator())` (line 159), when the expression is
well formed: `Fn` is a class type (possibly cv-qualified, never a reference)
in which the name `operator()` finds exactly one function that is not a
template.  Otherwise substitution fails. -/
def address_of_call_operator : Ty → Option Ty
  | .cls name [(T, false)] cc ca _ =>
      some (.memptr (.cls name [(T, false)] cc ca .plain) T .plain)
  | _ => none

/-- The two overloads of `do_unwrap`, named by their parameter type. -/
inductive overload where
  | int_
  | long_
  deriving DecidableEq, Repr

/-- Overload 0 (lines 156-159): `do_unwrap(int) -> unwrap<decltype(&Fn::operator())>`;
not viable when substitution of `Fn` fails. -/
def do_unwrap_int (Fn : Ty) : Option trait_class :=
  (address_of_call_operator Fn).map trait_class.unwrap_of

/-- Overload 1 (lines 161-164): `do_unwrap(long) -> unwrap<Fn>`; naming the
specialisation never fails. -/
def do_unwrap_long (Fn : Ty) : Option trait_class :=
  some (.unwrap_of Fn)

/-- Overload resolution for the call `do_unwrap<Fn>(0)`: the argument is an
`int`, an exact match for overload 0 and an integral conversion for
overload 1, so overload 0 is chosen whenever it is viable. -/
def do_unwrap (Fn : Ty) : overload × trait_class :=
  match do_unwrap_int Fn, do_unwrap_long Fn with
  | some t, _ => (.int_, t)
  | none, some t => (.long_, t)
  | none, none => (.long_, .unwrap_of Fn)

/-- The alias `unwrap_t<Fn> = decltype(do_unwrap<Fn>(0))` (lines 166-169). -/
def unwrap_t (Fn : Ty) : trait_class :=
  (do_unwrap Fn).2

end unwrap_traits

/-- The alias `impl_qualified_t<T, Constant, Volatile>::type` (lines 173-198). -/
def impl_qualified_t {T : Type} (t : T) : Bool → Bool → qualified_ptr T
  | false, false => ⟨t, .plain⟩
  | true, false => ⟨t, .const_⟩
  | false, true => ⟨t, .volatile_⟩
  | true, true => ⟨t, .const_volatile⟩

/-- The template arguments naming a specialisation `call_wrapper_impl<Fn, Copyable, Constant, Volatile>`. -/
structure call_wrapper_impl_id where
  Fn : Ty
  Copyable : Bool
  Constant : Bool
  Volatile : Bool

/-- The body of a defined specialisation of `call_wrapper_impl`: its base
class and the virtual member functions it declares besides the destructor,
each given by its name and function type. -/
structure call_wrapper_impl_body where
  base : Option call_wrapper_impl_id
  declared : List (String × Ty)

/-- The class template `call_wrapper_impl` (lines 200-250): four
specialisations for the non copyable wrapper, one for the copyable wrapper
(whose `clone` is commented out); the primary template is only declared. -/
def call_wrapper_impl : call_wrapper_impl_id → Option call_wrapper_impl_body
  | ⟨.fn R Args .plain .none, false, false, false⟩ =>
      some ⟨none, [("operator()", .fn R (Args.map rvalue_reference_to) .plain .none)]⟩
  | ⟨.fn R Args .plain .none, false, true, false⟩ =>
      some ⟨none, [("operator()", .fn R (Args.map rvalue_reference_to) .const_ .none)]⟩
  | ⟨.fn R Args .plain .none, false, false, true⟩ =>
      some ⟨none, [("operator()", .fn R (Args.map rvalue_reference_to) .volatile_ .none)]⟩
  | ⟨.fn R Args .plain .none, false, true, true⟩ =>
      some ⟨none, [("operator()", .fn R (Args.map rvalue_reference_to) .const_volatile .none)]⟩
  | ⟨.fn R Args .plain .none, true, Constant, Volatile⟩ =>
      some ⟨some ⟨.fn R Args .plain .none, false, Constant, Volatile⟩, []⟩
  | _ => none

/-- The virtual member functions of a specialisation of `call_wrapper_impl`:
those it declares, then those of its base (a base has itself no base). -/
def call_wrapper_impl_members (w : call_wrapper_impl_id) : List (String × Ty) :=
  match call_wrapper_impl w with
  | none => []
  | some body =>
      body.declared ++
        (match body.base with
         | none => []
         | some b =>
             match call_wrapper_impl b with
             | none => []
             | some base_body => base_body.declared)

/-- The types of the virtual call operators of a specialisation. -/
def virtual_call_operators (w : call_wrapper_impl_id) : List Ty :=
  ((call_wrapper_impl_members w).filter (fun m => m.1 == "operator()")).map (·.2)

/-- A defined specialisation `function<ReturnType(Args...), Copyable, Constant, Volatile>`
of the class template `detail::function` (lines 334-360), given by its
template arguments. -/
structure function where
  ReturnType : Ty
  Args : List Ty
  Copyable : Bool
  Constant : Bool
  Volatile : Bool

/-- The template-id `function<Fn, Copyable, Constant, Volatile>` (lines
280-281, 334-335): defined by the one partial specialisation when `Fn` is
`ReturnType(Args...)`, only declared otherwise. -/
def function.of : Ty → Bool → Bool → Bool → Option function
  | .fn R Args .plain .none, Copyable, Constant, Volatile =>
      some ⟨R, Args, Copyable, Constant, Volatile⟩
  | _, _, _, _ => none

/-- The type of `operator()` in the base `call_operator<function<...>>`
(lines 283-332): one specialisation per qualifier pair, for either value
of `Copyable`. -/
def call_operator : function → Ty
  | ⟨R, Args, _, false, false⟩ => .fn R Args .plain .none
  | ⟨R, Args, _, true, false⟩ => .fn R Args .const_ .none
  | ⟨R, Args, _, false, true⟩ => .fn R Args .volatile_ .none
  | ⟨R, Args, _, true, true⟩ => .fn R Args .const_volatile .none

/-- The base `signature<ReturnType, Args...>` of a wrapper (line 337), which
gives it `return_type` and `argument_type`. -/
def function.signature (f : function) : signature :=
  { return_type := f.ReturnType, argument_type := ⟨f.Args⟩ }

/-- The member alias `wrapper_t` (line 341). -/
def function.wrapper_t (f : function) : call_wrapper_impl_id :=
  ⟨.fn f.ReturnType f.Args .plain .none, f.Copyable, f.Constant, f.Volatile⟩

/-- The type of the data member `_impl` (line 343). -/
def function.impl_type (f : function) : qualified_ptr call_wrapper_impl_id :=
  impl_qualified_t f.wrapper_t f.Constant f.Volatile

/-- The alias template `function_base<Signature, Copyable>` (lines 362-368);
it names members of `unwrap<Signature>` directly. -/
def function_base (Signature : Ty) (Copyable : Bool) : Option function :=
  match unwrap_traits.unwrap Signature with
  | none => none
  | some u => function.of u.decayed_type Copyable u.is_const u.is_volatile

end detail

/-- The alias `my::function<Signature>` (lines 372-374). -/
def function (Signature : Cpp.Ty) : Option detail.function :=
  detail.function_base Signature true

/-- The alias `my::non_copyable_function<Signature>` (lines 376-378). -/
def non_copyable_function (Signature : Cpp.Ty) : Option detail.function :=
  detail.function_base Signature false

/-- The return type of the specialisation `make_function<Fn>` (lines 380-394),
when it can be instantiated.  A parameter `Fn functional` declared with a
function type is adjusted to a pointer, which `std::forward<Fn>` (line 393)
does not accept, and a cv- or ref-qualified function type is no parameter
type at all; for every other `Fn` the body is well formed as soon as the
members of `unwrap_t<Fn>` it names exist. -/
def make_function (Fn : Cpp.Ty) : Option detail.function :=
  match Fn with
  | .fn _ _ _ _ => none
  | _ =>
      match (detail.unwrap_traits.unwrap_t Fn).members with
      | none => none
      | some u =>
          detail.function.of u.decayed_type
            (Cpp.is_copy_assignable (Cpp.decay_t Fn) || Cpp.is_copy_constructible (Cpp.decay_t Fn))
            u.is_const u.is_volatile

end my


namespace my.run

/-- An object of some class derived from `call_wrapper_impl<ReturnType(Args...), ...>`,
seen through its virtual `operator()`.  The header itself defines no such
class (the namespace `wrapper` of lines 268-278 is empty). -/
structure call_wrapper_impl (Args ReturnType : Type) where
  call : Args → ReturnType

/-- An object of class `detail::function<ReturnType(Args...), Copyable, Constant, Volatile>`:
its one data member `_impl` (line 343), where `none` is the null pointer. -/
structure function (Args ReturnType : Type) (Copyable Constant Volatile : Bool) where
  _impl : Option (call_wrapper_impl Args ReturnType)

variable {Args ReturnType : Type} {Copyable Constant Volatile : Bool}

/-- The constructor `function()` (lines 346-347). -/
def function.default_constructor : function Args ReturnType Copyable Constant Volatile :=
  { _impl := none }

/-- The constructor `template<typename T> function(T&&)` (lines 349-351): the
argument is not named and not used. -/
def function.converting_constructor {T : Type} (_ : T) :
    function Args ReturnType Copyable Constant Volatile :=
  { _impl := none }

/-- The implicitly declared copy operations of the class: the pointer is
copied memberwise. -/
def function.copy (other : function Args ReturnType Copyable Constant Volatile) :
    function Args ReturnType Copyable Constant Volatile :=
  { _impl := other._impl }

/-- The expression `(*_impl)(std::forward<Args>(args)...)`: a virtual call
through the stored pointer.  Dereferencing the null pointer is undefined
behaviour, so the expression has no value then. -/
def call_through (impl : Option (call_wrapper_impl Args ReturnType)) (args : Args) :
    Option ReturnType :=
  match impl with
  | none => none
  | some w => some (w.call args)

/-- The member `operator()` inherited from `call_operator<function<...>>` (lines
286-332): one specialisation per qualifier pair, each forwarding to `_impl`. -/
def function.call (self : function Args ReturnType Copyable Constant Volatile) (args : Args) :
    Option ReturnType :=
  match Constant, Volatile with
  | false, false => call_through self._impl args
  | true, false => call_through self._impl args
  | false, true => call_through self._impl args
  | true, true => call_through self._impl args

/-- The function template `make_function` (lines 380-394): the wrapper is built by
the converting constructor from the forwarded argument. -/
def make_function (functional : Args → ReturnType) :
    function Args ReturnType Copyable Constant Volatile :=
  function.converting_constructor functional

/-- The wrappers a program can obtain through the public members of the class
and through `make_function`. -/
inductive Reachable : function Args ReturnType Copyable Constant Volatile → Prop where
  | default_constructed : Reachable function.default_constructor
  | converted {T : Type} (x : T) : Reachable (function.converting_constructor x)
  | made (functional : Args → ReturnType) : Reachable (make_function functional)
  | copied (w : function Args ReturnType Copyable Constant Volatile) :
      Reachable w → Reachable w.copy

end my.run

namespace my.shapes

open Cpp

/-- The shape "function type `R(Args...) q`" of the specification. -/
def is_function_type : Ty → Bool
  | .fn _ _ _ .none => true
  | _ => false

/-- The shape "function pointer `R(* q)(Args...)`" of the specification. -/
def is_function_pointer : Ty → Bool
  | .ptr (.fn _ _ .plain .none) _ => true
  | _ => false

/-- The shape "reference to such a pointer `R(* q &)(Args...)`" of the
specification. -/
def is_function_pointer_reference : Ty → Bool
  | .lref (.ptr (.fn _ _ .plain .none) _) => true
  | _ => false

/-- The shape "member-function pointer `R(C::*)(Args...) q`" of the
specification. -/
def is_member_function_pointer : Ty → Bool
  | .memptr _ (.fn _ _ _ .none) .plain => true
  | _ => false

/-- The supported shapes the specification lists for a callable type. -/
def supported_shape (Fn : Ty) : Bool :=
  is_function_type Fn || is_function_pointer Fn ||
    is_function_pointer_reference Fn || is_member_function_pointer Fn

/-- The function-pointer specialisations of `unwrap` other than the plain one:
a cv-qualified pointer to function, or a reference to a pointer to function. -/
def is_qualified_or_reference_function_pointer : Ty → Bool
  | .ptr (.fn _ _ .plain .none) .plain => false
  | .ptr (.fn _ _ .plain .none) _ => true
  | .lref (.ptr (.fn _ _ .plain .none) _) => true
  | _ => false

end my.shapes

section run_lemmas

open my.run

variable {Args ReturnType : Type} {Copyable Constant Volatile : Bool}

theorem my.run.call_eq_call_through
    (w : function Args ReturnType Copyable Constant Volatile) (args : Args) :
    w.call args = call_through w._impl args := by
  unfold function.call
  cases Constant <;> cases Volatile <;> rfl

theorem my.run.reachable_impl_null
    (w : function Args ReturnType Copyable Constant Volatile) (h : Reachable w) :
    w._impl = none := by
  induction h with
  | default_constructed => rfl
  | converted x => rfl
  | made f => rfl
  | copied w _ ih => simpa [function.copy] using ih

end run_lemmas

/-- C1 (as stated, refuted): the wrapper made from the successor function on
the natural numbers, called with 3, does not return the successor of 3. -/
theorem C1_make_function_call_counterexample :
    (my.run.make_function (fun n : Nat => n + 1) :
        my.run.function Nat Nat true false false).call 3 ≠ some ((fun n : Nat => n + 1) 3) := by
  simp [my.run.call_eq_call_through, my.run.make_function,
    my.run.function.converting_constructor, my.run.call_through]

/-- C1 (amended): calling a wrapper forwards the arguments to the implementation
`_impl` points to and returns its result; the wrapper returned by `make_function`
holds a null `_impl`, so calling it yields no value, whatever the callable and
the arguments. -/
theorem C1_call_forwards_to_impl {Args ReturnType : Type} (Copyable Constant Volatile : Bool)
    (f : Args → ReturnType) (args : Args) :
    (∀ impl : my.run.call_wrapper_impl Args ReturnType,
        (my.run.function.mk (some impl) :
          my.run.function Args ReturnType Copyable Constant Volatile).call args
          = some (impl.call args)) ∧
    (my.run.make_function f :
        my.run.function Args ReturnType Copyable Constant Volatile).call args = none := by
  refine ⟨fun impl => ?_, ?_⟩
  · rw [my.run.call_eq_call_through]; rfl
  · rw [my.run.call_eq_call_through]; rfl

/-- C7: for every signature and flag combination the default constructor, the
converting constructor and `make_function` produce a wrapper whose `_impl` is
null, whatever callable is supplied; every wrapper reachable through the public
interface has a null `_impl`, and a call on it meets no implementation. -/
theorem C7_construction_never_allocates {Args ReturnType : Type}
    (Copyable Constant Volatile : Bool) :
    (my.run.function.default_constructor :
        my.run.function Args ReturnType Copyable Constant Volatile)._impl = none ∧
    (∀ (T : Type) (x : T), (my.run.function.converting_constructor x :
        my.run.function Args ReturnType Copyable Constant Volatile)._impl = none) ∧
    (∀ f : Args → ReturnType, (my.run.make_function f :
        my.run.function Args ReturnType Copyable Constant Volatile)._impl = none) ∧
    (∀ w : my.run.function Args ReturnType Copyable Constant Volatile,
        my.run.Reachable w → w._impl = none ∧ ∀ args, w.call args = none) := by
  refine ⟨rfl, fun _ _ => rfl, fun _ => rfl, fun w h => ?_⟩
  have hw := my.run.reachable_impl_null w h
  refine ⟨hw, fun args => ?_⟩
  rw [my.run.call_eq_call_through, hw]; rfl

/-- C7 at a concrete wrapper: a copy of the wrapper made from the successor
function is reachable, has a null `_impl` and yields no value when called. -/
theorem C7_construction_never_allocates_witness :
    my.run.Reachable (my.run.make_function (fun n : Nat => n + 1) :
        my.run.function Nat Nat true true false).copy ∧
    (my.run.make_function (fun n : Nat => n + 1) :
        my.run.function Nat Nat true true false).copy._impl = none ∧
    (my.run.make_function (fun n : Nat => n + 1) :
        my.run.function Nat Nat true true false).copy.call 7 = none :=
  have h : my.run.Reachable (my.run.make_function (fun n : Nat => n + 1) :
      my.run.function Nat Nat true true false).copy :=
    my.run.Reachable.copied _ (my.run.Reachable.made _)
  ⟨h, ((C7_construction_never_allocates true true false).2.2.2 _ h).1,
    ((C7_construction_never_allocates true true false).2.2.2 _ h).2 7⟩

section type_lemmas

open Cpp my.detail my.detail.unwrap_traits my.shapes

theorem my.detail.unwrap_traits.unwrap_isSome_iff_supported (Fn : Ty) :
    (unwrap Fn).isSome = supported_shape Fn := by
  rcases Fn with ⟨n, q⟩ | ⟨n, ops, cc, ca, q⟩ | ⟨R, A, q, r⟩ | ⟨p, q⟩ | ⟨C, m, q⟩ | t | t
  · rfl
  · rfl
  · cases q <;> cases r <;> rfl
  · rcases p with _ | _ | ⟨R, A, q', r⟩ | _ | _ | _ | _ <;> try rfl
    cases q' <;> cases r <;> cases q <;> rfl
  · rcases m with _ | _ | ⟨R, A, q', r⟩ | _ | _ | _ | _ <;> try rfl
    cases q' <;> cases r <;> cases q <;> rfl
  · rcases t with _ | _ | _ | ⟨p, q⟩ | _ | _ | _ <;> try rfl
    rcases p with _ | _ | ⟨R, A, q', r⟩ | _ | _ | _ | _ <;> try rfl
    cases q' <;> cases r <;> cases q <;> rfl
  · rfl

theorem my.detail.unwrap_traits.unwrap_fn (R : Ty) (Args : List Ty) (q : CV) :
    unwrap (.fn R Args q .none) =
      some (unwrap_trait_base R Args false q.has_const q.has_volatile) := by
  cases q <;> rfl

theorem my.detail.unwrap_traits.unwrap_ptr (R : Ty) (Args : List Ty) (q : CV) :
    unwrap (.ptr (.fn R Args .plain .none) q) =
      some (unwrap_trait_base R Args false q.has_const q.has_volatile) := by
  cases q <;> rfl

theorem my.detail.unwrap_traits.unwrap_lref (R : Ty) (Args : List Ty) (q : CV) :
    unwrap (.lref (.ptr (.fn R Args .plain .none) q)) =
      some (unwrap_trait_base R Args false q.has_const q.has_volatile) := by
  cases q <;> rfl

theorem my.detail.unwrap_traits.unwrap_memptr (C R : Ty) (Args : List Ty) (q : CV) :
    unwrap (.memptr C (.fn R Args q .none) .plain) =
      some (class_trait_base C (unwrap_trait_base R Args true q.has_const q.has_volatile)) := by
  cases q <;> rfl

end type_lemmas

/-- C2: on each supported shape (function type, function pointer, reference to
function pointer, member-function pointer) with return type R, arguments Args
and qualifier q, `unwrap` yields return_type R, argument_type tuple of Args,
decayed_type R(Args...), is_const and is_volatile as q contains them, and
is_member true exactly for the member-function pointer, whose class_type is C. -/
theorem C2_unwrap_supported_shapes (R C : Cpp.Ty) (Args : List Cpp.Ty) (q : Cpp.CV) :
    my.detail.unwrap_traits.unwrap (.fn R Args q .none) =
      some { return_type := R, argument_type := ⟨Args⟩,
             decayed_type := .fn R Args .plain .none, is_member := false,
             is_const := q.has_const, is_volatile := q.has_volatile, class_type := none } ∧
    my.detail.unwrap_traits.unwrap (.ptr (.fn R Args .plain .none) q) =
      some { return_type := R, argument_type := ⟨Args⟩,
             decayed_type := .fn R Args .plain .none, is_member := false,
             is_const := q.has_const, is_volatile := q.has_volatile, class_type := none } ∧
    my.detail.unwrap_traits.unwrap (.lref (.ptr (.fn R Args .plain .none) q)) =
      some { return_type := R, argument_type := ⟨Args⟩,
             decayed_type := .fn R Args .plain .none, is_member := false,
             is_const := q.has_const, is_volatile := q.has_volatile, class_type := none } ∧
    my.detail.unwrap_traits.unwrap (.memptr C (.fn R Args q .none) .plain) =
      some { return_type := R, argument_type := ⟨Args⟩,
             decayed_type := .fn R Args .plain .none, is_member := true,
             is_const := q.has_const, is_volatile := q.has_volatile, class_type := some C } := by
  cases q <;> exact ⟨rfl, rfl, rfl, rfl⟩

section make_function_lemmas

open Cpp my.detail my.detail.unwrap_traits my.shapes

theorem my.detail.unwrap_traits.decayed_type_of_unwrap (S : Ty) (u : traits)
    (h : unwrap S = some u) :
    u.decayed_type = .fn u.return_type u.argument_type.elems .plain .none := by
  unfold unwrap at h
  split at h <;> simp at h <;> subst h <;> rfl

theorem my.detail.unwrap_traits.unwrap_t_of_no_call_operator (Fn : Ty)
    (h : address_of_call_operator Fn = none) :
    do_unwrap Fn = (.long_, .unwrap_of Fn) := by
  simp [do_unwrap, do_unwrap_int, do_unwrap_long, h]

end make_function_lemmas

/-- C3: for a function object whose single, non-template `operator()` has type
`R(Args...) q`, `do_unwrap` selects the int overload (through the address of
`operator()`) and `make_function` returns `function<R(Args...), Copyable, Constant, Volatile>`
with Constant and Volatile as q contains const and volatile; the same wrapper
qualifiers result for a member-function pointer `R(C::*)(Args...) q`. -/
theorem C3_make_function_infers_qualifiers (name : String) (cc ca : Bool) (qc : Cpp.CV)
    (C R : Cpp.Ty) (Args : List Cpp.Ty) (q : Cpp.CV) :
    (my.detail.unwrap_traits.do_unwrap
        (.cls name [(.fn R Args q .none, false)] cc ca qc)).1 = .int_ ∧
    my.detail.unwrap_traits.unwrap_t (.cls name [(.fn R Args q .none, false)] cc ca qc) =
      .unwrap_of (.memptr (.cls name [(.fn R Args q .none, false)] cc ca .plain)
        (.fn R Args q .none) .plain) ∧
    my.make_function (.cls name [(.fn R Args q .none, false)] cc ca qc) =
      some ⟨R, Args, ca || cc, q.has_const, q.has_volatile⟩ ∧
    my.make_function (.memptr C (.fn R Args q .none) .plain) =
      some ⟨R, Args, true, q.has_const, q.has_volatile⟩ := by
  refine ⟨rfl, rfl, ?_, ?_⟩
  · cases q <;> cases qc <;> simp [my.make_function, my.detail.unwrap_traits.unwrap_t,
      my.detail.unwrap_traits.do_unwrap, my.detail.unwrap_traits.do_unwrap_int,
      my.detail.unwrap_traits.address_of_call_operator,
      my.detail.unwrap_traits.trait_class.members, my.detail.unwrap_traits.unwrap,
      my.detail.unwrap_traits.unwrap_trait_base, my.detail.unwrap_traits.class_trait_base,
      my.detail.function.of, Cpp.decay_t, Cpp.remove_reference, Cpp.remove_cv,
      Cpp.is_copy_assignable, Cpp.is_copy_constructible, Cpp.assignable_from_lvalue,
      Cpp.CV.has_const, Cpp.CV.has_volatile]
  · cases q <;> rfl

/-- C4: when `make_function` accepts Fn, the Copyable flag of the wrapper type
it returns is true exactly when the decayed type of Fn is copy assignable or
copy constructible, and false exactly when it is neither; it is true for
every function pointer and every member-function pointer. -/
theorem C4_copyable_flag (Fn : Cpp.Ty) (f : my.detail.function)
    (h : my.make_function Fn = some f) :
    (f.Copyable = true ↔
      (Cpp.is_copy_assignable (Cpp.decay_t Fn) = true ∨
        Cpp.is_copy_constructible (Cpp.decay_t Fn) = true)) ∧
    (f.Copyable = false ↔
      (Cpp.is_copy_assignable (Cpp.decay_t Fn) = false ∧
        Cpp.is_copy_constructible (Cpp.decay_t Fn) = false)) ∧
    (∀ (R : Cpp.Ty) (Args : List Cpp.Ty) (q : Cpp.CV),
      (my.make_function (.ptr (.fn R Args .plain .none) q)).map (·.Copyable) = some true) ∧
    (∀ (C R : Cpp.Ty) (Args : List Cpp.Ty) (q : Cpp.CV),
      (my.make_function (.memptr C (.fn R Args q .none) .plain)).map (·.Copyable)
        = some true) := by
  have hc : f.Copyable =
      (Cpp.is_copy_assignable (Cpp.decay_t Fn) || Cpp.is_copy_constructible (Cpp.decay_t Fn)) := by
    unfold my.make_function at h
    split at h
    · simp at h
    · split at h
      · simp at h
      · rename_i u hu
        unfold my.detail.function.of at h
        split at h
        · simp at h; rw [← h]
        · simp at h
  refine ⟨?_, ?_, ?_, ?_⟩
  · rw [hc]; simp
  · rw [hc]; simp
  · intro R Args q; cases q <;> rfl
  · intro C R Args q; cases q <;> rfl

/-- C4 at a concrete callable: a move-only function object with a const call
operator `int()` is accepted and its wrapper type has Copyable false. -/
theorem C4_copyable_flag_witness :
    my.make_function
        (.cls "move_only" [(.fn (.fundamental "int" .plain) [] .const_ .none, false)]
          false false .plain)
      = some ⟨.fundamental "int" .plain, [], false, true, false⟩ ∧
    (Cpp.is_copy_assignable (Cpp.decay_t
        (.cls "move_only" [(.fn (.fundamental "int" .plain) [] .const_ .none, false)]
          false false .plain)) = false ∧
      Cpp.is_copy_constructible (Cpp.decay_t
        (.cls "move_only" [(.fn (.fundamental "int" .plain) [] .const_ .none, false)]
          false false .plain)) = false) :=
  ⟨rfl, (C4_copyable_flag
      (.cls "move_only" [(.fn (.fundamental "int" .plain) [] .const_ .none, false)]
        false false .plain)
      ⟨.fundamental "int" .plain, [], false, true, false⟩ rfl).2.1.mp rfl⟩

/-- C5: for every signature S on which `unwrap` is defined, with D its
decayed_type, c its is_const and v its is_volatile, `my::function<S>` is
`detail::function<D, true, c, v>` and `my::non_copyable_function<S>` is
`detail::function<D, false, c, v>`; both are defined, differ only in the
Copyable flag, and expose the return_type and argument_type of S. -/
theorem C5_aliases (S : Cpp.Ty) (u : my.detail.unwrap_traits.traits)
    (h : my.detail.unwrap_traits.unwrap S = some u) :
    my.function S = my.detail.function.of u.decayed_type true u.is_const u.is_volatile ∧
    my.non_copyable_function S =
      my.detail.function.of u.decayed_type false u.is_const u.is_volatile ∧
    ∃ f g : my.detail.function,
      my.function S = some f ∧ my.non_copyable_function S = some g ∧
      f.Copyable = true ∧ g.Copyable = false ∧
      g = { f with Copyable := false } ∧
      f.Constant = u.is_const ∧ f.Volatile = u.is_volatile ∧
      f.signature.return_type = u.return_type ∧
      f.signature.argument_type = u.argument_type ∧
      g.signature.return_type = u.return_type ∧
      g.signature.argument_type = u.argument_type := by
  have hd := my.detail.unwrap_traits.decayed_type_of_unwrap S u h
  refine ⟨?_, ?_, ?_⟩
  · simp [my.function, my.detail.function_base, h]
  · simp [my.non_copyable_function, my.detail.function_base, h]
  · refine ⟨⟨u.return_type, u.argument_type.elems, true, u.is_const, u.is_volatile⟩,
      ⟨u.return_type, u.argument_type.elems, false, u.is_const, u.is_volatile⟩, ?_⟩
    simp [my.function, my.non_copyable_function, my.detail.function_base, h, hd,
      my.detail.function.of, my.detail.function.signature]

/-- C5 at a concrete signature: for `int(char) const` the copyable alias is
`function<int(char), true, true, false>`. -/
theorem C5_aliases_witness :
    my.detail.unwrap_traits.unwrap
        (.fn (.fundamental "int" .plain) [.fundamental "char" .plain] .const_ .none)
      = some (my.detail.unwrap_traits.unwrap_trait_base (.fundamental "int" .plain)
          [.fundamental "char" .plain] false true false) ∧
    my.function (.fn (.fundamental "int" .plain) [.fundamental "char" .plain] .const_ .none)
      = my.detail.function.of
          (.fn (.fundamental "int" .plain) [.fundamental "char" .plain] .plain .none)
          true true false :=
  ⟨rfl, (C5_aliases
      (.fn (.fundamental "int" .plain) [.fundamental "char" .plain] .const_ .none)
      (my.detail.unwrap_traits.unwrap_trait_base (.fundamental "int" .plain)
          [.fundamental "char" .plain] false true false) rfl).1⟩

/-- C6: a type that has none of the supported shapes and no uniquely
addressable `operator()` gets no result from trait unwrapping (the members
decayed_type, is_const and is_volatile of `unwrap_t` do not exist), so
`make_function`, `my::function` and `my::non_copyable_function` are rejected
for it; and for every accepted type the wrapper's call operator returns the
callable's own return type, with no error value around it. -/
theorem C6_incompatible_type_rejected (Fn : Cpp.Ty)
    (hshape : my.shapes.supported_shape Fn = false)
    (hcall : my.detail.unwrap_traits.address_of_call_operator Fn = none) :
    (my.detail.unwrap_traits.unwrap_t Fn).members = none ∧
    my.make_function Fn = none ∧
    my.function Fn = none ∧
    my.non_copyable_function Fn = none ∧
    (∀ (Fn' : Cpp.Ty) (f : my.detail.function) (u : my.detail.unwrap_traits.traits),
      my.make_function Fn' = some f →
      (my.detail.unwrap_traits.unwrap_t Fn').members = some u →
      my.detail.call_operator f =
        .fn u.return_type u.argument_type.elems (Cpp.CV.of_flags u.is_const u.is_volatile)
          .none) := by
  have hu : my.detail.unwrap_traits.unwrap Fn = none := by
    have := my.detail.unwrap_traits.unwrap_isSome_iff_supported Fn
    rw [hshape] at this
    simpa using this
  have ht : (my.detail.unwrap_traits.unwrap_t Fn).members = none := by
    simp [my.detail.unwrap_traits.unwrap_t,
      my.detail.unwrap_traits.unwrap_t_of_no_call_operator Fn hcall,
      my.detail.unwrap_traits.trait_class.members, hu]
  refine ⟨ht, ?_, ?_, ?_, ?_⟩
  · unfold my.make_function
    split
    · rfl
    · simp [ht]
  · simp [my.function, my.detail.function_base, hu]
  · simp [my.non_copyable_function, my.detail.function_base, hu]
  · intro Fn' f u hf hmem
    have hd : u.decayed_type = .fn u.return_type u.argument_type.elems .plain .none := by
      cases hX : my.detail.unwrap_traits.unwrap_t Fn' with
      | unwrap_of X =>
          rw [hX] at hmem
          exact my.detail.unwrap_traits.decayed_type_of_unwrap X u hmem
      | false_type => rw [hX] at hmem; simp [my.detail.unwrap_traits.trait_class.members] at hmem
    unfold my.make_function at hf
    split at hf
    · simp at hf
    · simp [hmem, hd, my.detail.function.of] at hf
      subst hf
      cases u.is_const <;> cases u.is_volatile <;> rfl

/-- C6 at a concrete type: `int` has no supported shape and no call operator,
and `make_function<int>` is rejected. -/
theorem C6_incompatible_type_rejected_witness :
    my.shapes.supported_shape (.fundamental "int" .plain) = false ∧
    my.detail.unwrap_traits.address_of_call_operator (.fundamental "int" .plain) = none ∧
    my.make_function (.fundamental "int" .plain) = none :=
  ⟨rfl, rfl, (C6_incompatible_type_rejected (.fundamental "int" .plain) rfl rfl).2.1⟩

/-- C8 (the code at the failing input): for `int`, which is not unwrappable,
`unwrap_t<int>` is the specialisation `unwrap<int>` of the primary template, which
has no members, and is not `std::false_type`; no type at all gives `std::false_type`. -/
theorem C8_unwrap_t_int_is_not_false_type :
    my.detail.unwrap_traits.unwrap_t (.fundamental "int" .plain)
      = .unwrap_of (.fundamental "int" .plain) ∧
    (my.detail.unwrap_traits.unwrap_t (.fundamental "int" .plain)).members = none ∧
    my.detail.unwrap_traits.unwrap_t (.fundamental "int" .plain) ≠ .false_type ∧
    (∀ Fn : Cpp.Ty, my.detail.unwrap_traits.unwrap_t Fn ≠ .false_type) := by
  refine ⟨rfl, rfl, by simp [my.detail.unwrap_traits.unwrap_t,
    my.detail.unwrap_traits.do_unwrap, my.detail.unwrap_traits.do_unwrap_int,
    my.detail.unwrap_traits.do_unwrap_long,
    my.detail.unwrap_traits.address_of_call_operator], ?_⟩
  intro Fn
  unfold my.detail.unwrap_traits.unwrap_t my.detail.unwrap_traits.do_unwrap
    my.detail.unwrap_traits.do_unwrap_int my.detail.unwrap_traits.do_unwrap_long
  cases my.detail.unwrap_traits.address_of_call_operator Fn <;> simp

/-- C9 (as stated, refuted): for the signature `int(int)` with all flags false
the virtual call operator of the erased base does not have the parameter list
`(int)`: its parameter is `int&&`. -/
theorem C9_virtual_call_operator_counterexample :
    my.detail.virtual_call_operators
        ⟨.fn (.fundamental "int" .plain) [.fundamental "int" .plain] .plain .none,
          false, false, false⟩
      = [.fn (.fundamental "int" .plain) [.rref (.fundamental "int" .plain)] .plain .none] ∧
    my.detail.virtual_call_operators
        ⟨.fn (.fundamental "int" .plain) [.fundamental "int" .plain] .plain .none,
          false, false, false⟩
      ≠ [.fn (.fundamental "int" .plain) [.fundamental "int" .plain] .plain .none] := by
  constructor
  · simp [my.detail.virtual_call_operators, my.detail.call_wrapper_impl_members,
      my.detail.call_wrapper_impl, Cpp.rvalue_reference_to]
  · simp [my.detail.virtual_call_operators, my.detail.call_wrapper_impl_members,
      my.detail.call_wrapper_impl, Cpp.rvalue_reference_to]

/-- C9 (amended): for every signature R(Args...) and every Copyable, Constant,
Volatile, the erased base has exactly one virtual call operator, with return
type R, parameters Args&&... and the qualifier given by Constant and Volatile;
the stored pointer type points to the erased base under the same qualifier;
the wrapper's own call operator has return type R, parameters Args... and the
same qualifier; and the copyable base declares no operation of its own,
derives from the non copyable base with the same flags, and so has the same
virtual call operator. -/
theorem C9_call_signature_lattice (R : Cpp.Ty) (Args : List Cpp.Ty)
    (Copyable Constant Volatile : Bool) :
    my.detail.virtual_call_operators ⟨.fn R Args .plain .none, Copyable, Constant, Volatile⟩
      = [.fn R (Args.map Cpp.rvalue_reference_to) (Cpp.CV.of_flags Constant Volatile) .none] ∧
    (my.detail.function.mk R Args Copyable Constant Volatile).impl_type
      = ⟨⟨.fn R Args .plain .none, Copyable, Constant, Volatile⟩,
          Cpp.CV.of_flags Constant Volatile⟩ ∧
    my.detail.call_operator ⟨R, Args, Copyable, Constant, Volatile⟩
      = .fn R Args (Cpp.CV.of_flags Constant Volatile) .none ∧
    my.detail.call_wrapper_impl ⟨.fn R Args .plain .none, true, Constant, Volatile⟩
      = some ⟨some ⟨.fn R Args .plain .none, false, Constant, Volatile⟩, []⟩ ∧
    my.detail.virtual_call_operators ⟨.fn R Args .plain .none, true, Constant, Volatile⟩
      = my.detail.virtual_call_operators
          ⟨.fn R Args .plain .none, false, Constant, Volatile⟩ := by
  cases Copyable <;> cases Constant <;> cases Volatile <;>
    simp [my.detail.virtual_call_operators, my.detail.call_wrapper_impl_members,
      my.detail.call_wrapper_impl, my.detail.function.impl_type, my.detail.function.wrapper_t,
      my.detail.impl_qualified_t, my.detail.call_operator, Cpp.CV.of_flags]

section deduction_lemmas

open Cpp my.detail my.detail.unwrap_traits my.shapes

theorem my.detail.unwrap_traits.address_of_call_operator_shape (Fn Y : Ty)
    (h : address_of_call_operator Fn = some Y) :
    ∃ C T, Y = .memptr C T .plain := by
  unfold address_of_call_operator at h
  split at h
  · simp at h; exact ⟨_, _, h.symm⟩
  · simp at h

theorem my.shapes.deduced_is_not_qualified (A : Ty)
    (h : is_reference (remove_reference A) = false) :
    is_qualified_or_reference_function_pointer (deduce_by_value A) = false := by
  unfold deduce_by_value
  generalize remove_reference A = U at h
  rcases U with _ | _ | ⟨R, A, q, r⟩ | ⟨p, q⟩ | _ | t | t
  · rfl
  · rfl
  · cases q <;> cases r <;> rfl
  · rcases p with _ | _ | ⟨R, A, q', r⟩ | _ | _ | _ | _ <;> try rfl
    cases q' <;> cases r <;> rfl
  · rfl
  · simp [is_reference] at h
  · simp [is_reference] at h

end deduction_lemmas

/-- C10: when `Fn` is deduced from a by-value argument that is a plain
function, a function pointer however cv-qualified, or a variable that is a
reference to such a pointer, `make_function` returns
`function<R(Args...), true, false, false>`; whatever the argument type, the
specialisation of `unwrap` selected for the deduced `Fn` is never one of the
const, volatile or reference function-pointer specialisations; these are
selected by `my::function<S>` and `my::non_copyable_function<S>` with S written
explicitly.  (An argument type is the type of an expression or of a
variable: it is no reference to a reference.) -/
theorem C10_function_pointer_by_value (R : Cpp.Ty) (Args : List Cpp.Ty) (q : Cpp.CV) :
    my.make_function (Cpp.deduce_by_value (.fn R Args .plain .none))
      = some ⟨R, Args, true, false, false⟩ ∧
    my.make_function (Cpp.deduce_by_value (.ptr (.fn R Args .plain .none) q))
      = some ⟨R, Args, true, false, false⟩ ∧
    my.make_function (Cpp.deduce_by_value (.lref (.ptr (.fn R Args .plain .none) q)))
      = some ⟨R, Args, true, false, false⟩ ∧
    my.make_function (Cpp.deduce_by_value (.rref (.ptr (.fn R Args .plain .none) q)))
      = some ⟨R, Args, true, false, false⟩ ∧
    (∀ A : Cpp.Ty, Cpp.is_reference (Cpp.remove_reference A) = false →
      ∃ X : Cpp.Ty,
        my.detail.unwrap_traits.unwrap_t (Cpp.deduce_by_value A) = .unwrap_of X ∧
        my.shapes.is_qualified_or_reference_function_pointer X = false) ∧
    my.function (.ptr (.fn R Args .plain .none) q)
      = some ⟨R, Args, true, q.has_const, q.has_volatile⟩ ∧
    my.non_copyable_function (.ptr (.fn R Args .plain .none) q)
      = some ⟨R, Args, false, q.has_const, q.has_volatile⟩ ∧
    my.function (.lref (.ptr (.fn R Args .plain .none) q))
      = some ⟨R, Args, true, q.has_const, q.has_volatile⟩ ∧
    my.non_copyable_function (.lref (.ptr (.fn R Args .plain .none) q))
      = some ⟨R, Args, false, q.has_const, q.has_volatile⟩ := by
  refine ⟨rfl, rfl, rfl, rfl, ?_, ?_, ?_, ?_, ?_⟩
  · intro A hA
    cases hc : my.detail.unwrap_traits.address_of_call_operator (Cpp.deduce_by_value A) with
    | none =>
        exact ⟨Cpp.deduce_by_value A,
          by simp [my.detail.unwrap_traits.unwrap_t,
            my.detail.unwrap_traits.unwrap_t_of_no_call_operator _ hc],
          my.shapes.deduced_is_not_qualified A hA⟩
    | some Y =>
        refine ⟨Y, by simp [my.detail.unwrap_traits.unwrap_t,
          my.detail.unwrap_traits.do_unwrap, my.detail.unwrap_traits.do_unwrap_int, hc], ?_⟩
        obtain ⟨C, T, rfl⟩ := my.detail.unwrap_traits.address_of_call_operator_shape _ Y hc
        rfl
  · cases q <;> rfl
  · cases q <;> rfl
  · cases q <;> rfl
  · cases q <;> rfl

/-- C10 at a concrete argument: for a `const` pointer to `void()` the deduced
`Fn` selects the plain function-pointer specialisation of `unwrap`. -/
theorem C10_function_pointer_by_value_witness :
    Cpp.is_reference (Cpp.remove_reference
      (.ptr (.fn (.fundamental "void" .plain) [] .plain .none) .const_)) = false ∧
    ∃ X : Cpp.Ty,
      my.detail.unwrap_traits.unwrap_t (Cpp.deduce_by_value
        (.ptr (.fn (.fundamental "void" .plain) [] .plain .none) .const_)) = .unwrap_of X ∧
      my.shapes.is_qualified_or_reference_function_pointer X = false :=
  ⟨rfl, (C10_function_pointer_by_value (.fundamental "void" .plain) [] .const_).2.2.2.2.1
    (.ptr (.fn (.fundamental "void" .plain) [] .plain .none) .const_) rfl⟩
